import Mathlib

/-!
Shallow embedding of the Cherry OpenFlow controller (Go) for verification.

The embedding follows the Go sources:
  * `src/cherryd/internal/controller/port.go` — `Port`, `NewPort`,
    `Port.Nodes`, `Port.AddNode`, `Port.RemoveNode`, `Port.SetValue`.
  * `src/unnamed/part_000` (package `network`) — `Device`, `setPort`,
    `addPort`, `updatePort`, `Port` lookup.
  * `src/unnamed/part_001` (package `router`) — `Router.OnPacketIn`,
    `sendICMPReply`, `isMyNetwork`, `handleIncoming`, `handleOutgoing`,
    `route`, `sendPacket`, `pickGateway`, `installFlow`.
  * `src/cherryd/internal/northbound/app/firewall/firewall.go`
    (package `network`, REST controller) — `Switch.validate`,
    `Controller.addSwitch`, `Controller.removeSwitch`, status codes.

Go maps become association lists, pointer mutation becomes functional
record update, and the effectful RPC surface (packet-out, flow install,
pass-through to the next processor) is reified as a result datatype.
Machine integers (`uint16`, `uint32`, `uint64`) are modelled as `Nat`;
none of the arithmetic in the verified code can overflow its Go type, and
where the spec talks about overflow (REST validation) the relevant Go
expression widens to `uint32` before adding, which the `Nat` model
reflects exactly.
-/

namespace Cherry

/-- A MAC address, as the byte sequence of Go's `net.HardwareAddr`.
Go compares MACs with `bytes.Compare`/`String()` equality, which is byte
equality, i.e. list equality here. -/
abbrev MAC := List Nat

/-- An IPv4 address as a 32-bit value (Go `net.IP`, 4-byte form). -/
abbrev IPAddr := Nat

/-- Go `net.IPNet`: a network address plus mask. -/
structure IPNet where
  addr : Nat
  mask : Nat
  deriving DecidableEq, Repr

/-- Go `(*net.IPNet).Contains`: mask the address and compare with the
network address (which is stored pre-masked). -/
def IPNet.contains (n : IPNet) (ip : IPAddr) : Bool :=
  Nat.land ip n.mask == Nat.land n.addr n.mask

/-! ## Port and Device (controller/port.go and part_000)

`openflow.Port` is an opaque parsed port descriptor produced by the
out-of-scope wire codec; only its identity matters to the claims, so it
is a wrapper around an abstract value. -/

/-- Opaque `openflow.Port` descriptor value. `raw = 0` stands for the Go
zero value a fresh `Port` holds before `SetValue`. -/
structure OFPortDesc where
  raw : Nat
  deriving DecidableEq, Repr

/-- A learned host entry (`controller.Node`): the Go struct also carries
a back-pointer to its port, which the claims never consult; the MAC is
the observable content (`Node.MAC()`). -/
structure SwNode where
  mac : MAC
  deriving DecidableEq, Repr

/-- `controller.Port` (port.go): port number, last-seen `openflow.Port`
descriptor and the list of learned nodes. The `device` back-pointer and
the lock are not part of the functional state. -/
structure SwPort where
  number : Nat
  value : OFPortDesc
  nodes : List SwNode
  deriving DecidableEq, Repr

/-- `NewPort` (port.go line 26): fresh port with an empty node slice and
a zero-valued descriptor. -/
def NewPort (num : Nat) : SwPort :=
  { number := num, value := { raw := 0 }, nodes := [] }

/-- `Port.SetValue` (port.go line 50). -/
def SwPort.SetValue (r : SwPort) (p : OFPortDesc) : SwPort :=
  { r with value := p }

/-- `Port.Nodes` (port.go line 58): returns the node slice. -/
def SwPort.Nodes (r : SwPort) : List SwNode :=
  r.nodes

/-- `Port.AddNode` (port.go line 66): builds a new node for `mac` and
appends it to the slice unconditionally, returning the updated port and
the new node. -/
def SwPort.AddNode (r : SwPort) (mac : MAC) : SwPort × SwNode :=
  let node : SwNode := { mac := mac }
  ({ r with nodes := r.nodes ++ [node] }, node)

/-- `Port.RemoveNode` (port.go line 77): rebuilds the slice keeping every
node whose MAC string differs from `mac`. -/
def SwPort.RemoveNode (r : SwPort) (mac : MAC) : SwPort :=
  { r with nodes := r.nodes.filter (fun v => v.mac ≠ mac) }

/-- Association-list update standing for Go's `r.ports[num] = port`:
replace the binding for `num` if present, otherwise append it. -/
def portsSet (m : List (Nat × SwPort)) (num : Nat) (v : SwPort) :
    List (Nat × SwPort) :=
  match m with
  | [] => [(num, v)]
  | kv :: rest =>
    if kv.1 = num then (num, v) :: rest else kv :: portsSet rest num v

/-- `network.Device` (part_000): the fields the port-map claims touch.
Descriptions, features, factory, session and the lock are omitted; `id`
and `flowTableID` are kept because the router reads them. -/
structure Device where
  id : String
  ports : List (Nat × SwPort)
  flowTableID : Nat
  deriving DecidableEq, Repr

/-- `Device.Port` (part_000 line 134): map lookup, `none` when absent. -/
def Device.port (r : Device) (num : Nat) : Option SwPort :=
  (r.ports.find? (fun kv => kv.1 = num)).map (·.2)

/-- `Device.setPort` (part_000 line 156): `NewPort` then `SetValue p`,
stored under `num`. -/
def Device.setPort (r : Device) (num : Nat) (p : OFPortDesc) : Device :=
  { r with ports := portsSet r.ports num ((NewPort num).SetValue p) }

/-- `Device.addPort` (part_000 line 162): always installs a fresh port
via `setPort` (the `p == nil` branch is a programmer-error abort and is
outside the functional model). -/
def Device.addPort (r : Device) (num : Nat) (p : OFPortDesc) : Device :=
  r.setPort num p

/-- `Device.updatePort` (part_000 line 173): when a port is already
stored under `num`, only its descriptor is replaced via `SetValue`;
otherwise behaves like `setPort`. -/
def Device.updatePort (r : Device) (num : Nat) (p : OFPortDesc) : Device :=
  match r.port num with
  | none => r.setPort num p
  | some port => { r with ports := portsSet r.ports num (port.SetValue p) }

end Cherry

namespace Cherry

/-! ## Theorems for C1 (Port.AddNode) and C10 (addPort/updatePort) -/

/-- Concrete port used to refute the idempotence claim: one node with
MAC `aa:bb:cc:00:00:01` already learned. -/
def c1Port : SwPort :=
  { number := 1, value := { raw := 0 },
    nodes := [{ mac := [0xaa, 0xbb, 0xcc, 0, 0, 1] }] }

/-- C1 counterexample: calling `AddNode` with a MAC already present on
the port is NOT idempotent — the multiset of MACs returned by `Nodes`
gains a second copy of the MAC. -/
theorem addNode_not_idempotent :
    ¬ ((↑(((c1Port.AddNode [0xaa, 0xbb, 0xcc, 0, 0, 1]).1.Nodes).map SwNode.mac) : Multiset MAC)
       = (↑(c1Port.Nodes.map SwNode.mac) : Multiset MAC)) := by
  decide

/-- C1 amended: `Port.AddNode` always appends a node for the given MAC,
so the multiset of MACs grows by exactly one copy of `mac` — also when a
node with that MAC is already present (duplicate learns on the same port
accumulate; dedup, if any, is the caller's concern). -/
theorem addNode_appends (r : SwPort) (mac : MAC) :
    ((r.AddNode mac).1.Nodes).map SwNode.mac = r.Nodes.map SwNode.mac ++ [mac] := by
  simp [SwPort.AddNode, SwPort.Nodes]

/-- Lookup after `portsSet` at the written key. -/
theorem portsSet_find_self (m : List (Nat × SwPort)) (num : Nat) (v : SwPort) :
    ((portsSet m num v).find? (fun kv => kv.1 = num)).map (·.2) = some v := by
  induction m with
  | nil => simp [portsSet]
  | cons hd tl ih =>
    by_cases h : hd.1 = num
    · simp [portsSet, h]
    · simp only [portsSet]
      rw [if_neg h]
      have e1 : decide (hd.1 = num) = false := by
        simpa using h
      simp only [List.find?, e1]
      exact ih

/-- Lookup after `portsSet` at a different key is unchanged. -/
theorem portsSet_find_other (m : List (Nat × SwPort)) (num other : Nat)
    (v : SwPort) (hne : other ≠ num) :
    ((portsSet m num v).find? (fun kv => kv.1 = other)).map (·.2)
      = (m.find? (fun kv => kv.1 = other)).map (·.2) := by
  induction m with
  | nil =>
    have e0 : decide (num = other) = false := by
      simpa using fun e => hne e.symm
    simp [portsSet, List.find?, e0]
  | cons hd tl ih =>
    by_cases h : hd.1 = num
    · have e0 : decide (num = other) = false := by
        simpa using fun e => hne e.symm
      have e1 : decide (hd.1 = other) = false := by
        simpa using fun e => hne (h ▸ e).symm
      simp [portsSet, h, List.find?, e0, e1]
    · simp only [portsSet]
      rw [if_neg h]
      by_cases h2 : hd.1 = other
      · simp [List.find?, h2]
      · have e1 : decide (hd.1 = other) = false := by
          simpa using h2
        simp only [List.find?, e1]
        exact ih

/-- C10: when port number `num` is already present, `updatePort` replaces
only the stored `openflow.Port` descriptor of the existing `Port` object
(its number and learned node list are untouched, and every other port
binding is unchanged), whereas `addPort` always installs a fresh `Port`
with an empty node list, discarding any nodes previously learned under
that number. -/
theorem updatePort_keeps_nodes_addPort_resets (d : Device) (num : Nat)
    (p : OFPortDesc) (port : SwPort) (h : d.port num = some port) :
    (d.updatePort num p).port num
        = some { number := port.number, value := p, nodes := port.nodes }
    ∧ (∀ other, other ≠ num → (d.updatePort num p).port other = d.port other)
    ∧ (d.addPort num p).port num
        = some { number := num, value := p, nodes := [] } := by
  refine ⟨?_, ?_, ?_⟩
  · unfold Device.updatePort
    rw [h]
    have := portsSet_find_self d.ports num (port.SetValue p)
    simpa [Device.port, SwPort.SetValue] using this
  · intro other hne
    unfold Device.updatePort
    rw [h]
    have := portsSet_find_other d.ports num other (port.SetValue p) hne
    simpa [Device.port] using this
  · have := portsSet_find_self d.ports num ((NewPort num).SetValue p)
    simpa [Device.addPort, Device.setPort, Device.port, NewPort,
      SwPort.SetValue] using this

/-- Concrete device for the C10 witness: port 7 already holds a learned
node, port 9 is another binding. -/
def c10Device : Device :=
  { id := "0000000000000001",
    ports :=
      [(7, { number := 7, value := { raw := 3 },
             nodes := [{ mac := [1, 2, 3, 4, 5, 6] }] }),
       (9, { number := 9, value := { raw := 4 }, nodes := [] })],
    flowTableID := 0 }

/-- C10 witness at the concrete device. -/
theorem updatePort_keeps_nodes_addPort_resets_witness :
    (c10Device.updatePort 7 { raw := 5 }).port 7
        = some { number := 7, value := { raw := 5 },
                 nodes := [{ mac := [1, 2, 3, 4, 5, 6] }] }
    ∧ (∀ other, other ≠ 7 → (c10Device.updatePort 7 { raw := 5 }).port other
        = c10Device.port other)
    ∧ (c10Device.addPort 7 { raw := 5 }).port 7
        = some { number := 7, value := { raw := 5 }, nodes := [] } :=
  updatePort_keeps_nodes_addPort_resets c10Device 7 { raw := 5 }
    { number := 7, value := { raw := 3 }, nodes := [{ mac := [1, 2, 3, 4, 5, 6] }] }
    (by decide)

/-! ## Router (part_001, package router)

The protocol codecs (`protocol.Ethernet`, `protocol.IPv4`,
`protocol.ICMPEcho` and their marshal/unmarshal functions) are repository
code outside `src/`; they are modelled from the spec as symbolic packet
values: a payload either parses as the next-layer packet or is raw bytes,
and marshalling is the identity on the symbolic value. The `database`
and `network.Finder` interfaces are parameters of the router, modelled
as records of pure functions; `rand.Intn n` is modelled by reducing a
caller-supplied draw modulo `n`. -/

/-- Modelled from the spec: `protocol.ICMPEcho` — ICMP type, identifier,
sequence number and payload of an echo message ("echo reply with the
request's ID, sequence and payload"). -/
structure ICMPEcho where
  icmpType : Nat
  id : Nat
  sequence : Nat
  payload : List Nat
  deriving DecidableEq, Repr

/-- Modelled from the spec: `protocol.NewICMPEchoReply(id, seq, payload)`
builds an echo reply (ICMP type 0) with the given identifier, sequence
and payload. -/
def NewICMPEchoReply (id seq : Nat) (payload : List Nat) : ICMPEcho :=
  { icmpType := 0, id := id, sequence := seq, payload := payload }

/-- Modelled from the spec: the payload of an IPv4 packet, as seen
through `ICMPEcho.UnmarshalBinary`: either bytes that parse as an ICMP
echo message, or raw bytes (on which unmarshalling fails). -/
inductive IPv4Payload where
  | icmp (e : ICMPEcho)
  | raw (bytes : List Nat)
  deriving DecidableEq, Repr

/-- Modelled from the spec: `protocol.IPv4` — source and destination
address, protocol number and payload. -/
structure IPv4 where
  srcIP : IPAddr
  dstIP : IPAddr
  protocol : Nat
  payload : IPv4Payload
  deriving DecidableEq, Repr

/-- Modelled from the spec: `protocol.NewIPv4(src, dst, proto, payload)`. -/
def NewIPv4 (src dst : IPAddr) (proto : Nat) (payload : IPv4Payload) : IPv4 :=
  { srcIP := src, dstIP := dst, protocol := proto, payload := payload }

/-- Modelled from the spec: the payload of an Ethernet frame, as seen
through `IPv4.UnmarshalBinary`: either bytes that parse as an IPv4
packet, or raw bytes (on which unmarshalling fails). -/
inductive EthPayload where
  | ipv4 (p : IPv4)
  | raw (bytes : List Nat)
  deriving DecidableEq, Repr

/-- Modelled from the spec: `protocol.Ethernet` — source and destination
MAC, EtherType and payload. -/
structure Ethernet where
  srcMAC : MAC
  dstMAC : MAC
  etherType : Nat
  payload : EthPayload
  deriving DecidableEq, Repr

/-- The slice of `network.Port` the router reads: `Device().ID()`,
`Device().FlowTableID()` (via `installFlow`) and `Number()`. -/
structure NetPort where
  deviceID : String
  deviceFlowTableID : Nat
  number : Nat
  deriving DecidableEq, Repr

/-- A located node as returned by `Finder.Node`: its MAC and the port it
is attached to. -/
structure NodeRef where
  mac : MAC
  port : NetPort
  deriving DecidableEq, Repr

/-- The `database` interface of part_001 (lines 48-54), with the error
returns dropped: the claims all condition on the query answers, and a
query error makes `OnPacketIn` propagate the error before reaching the
behaviour under proof. -/
structure DB where
  findMAC : IPAddr → Option MAC
  getGateways : List MAC
  getNetworks : List IPNet
  isGateway : MAC → Bool
  isRouter : IPAddr → Bool

/-- The `network.Finder` interface as the router uses it: `Node(mac)`
and `Path(srcDeviceID, dstDeviceID)`, the latter returning the hop list
of `(egress, peer ingress)` port pairs. -/
structure Finder where
  node : MAC → Option NodeRef
  path : String → String → List (NetPort × NetPort)

/-- `Router.isMyNetwork` (part_001 line 164): true iff some configured
network contains `ip`. -/
def isMyNetwork (db : DB) (ip : IPAddr) : Bool :=
  db.getNetworks.any (fun n => n.contains ip)

/-- The flow-mod match built by `installFlow` (part_001 lines 322-332):
in-port, EtherType, source MAC, destination MAC, destination IP. -/
structure FlowMatch where
  inPort : Nat
  etherType : Nat
  srcMAC : MAC
  dstMAC : MAC
  dstIP : IPNet
  deriving DecidableEq, Repr

/-- The single action object built by `installFlow`: the Go code creates
one action and calls `SetDstMAC` / `SetOutPort` on it; a field left
`none` was never set. The spec's "action list" `[set-dst-mac, output]`
corresponds to both fields set, `[output]` to `dstMAC = none`. -/
structure FlowAction where
  dstMAC : Option MAC
  outPort : Option Nat
  deriving DecidableEq, Repr

/-- The flow-mod assembled by `installFlow` (part_001 lines 348-357):
table id, idle timeout, priority, match and the ApplyActions
instruction's action. -/
structure FlowMod where
  tableID : Nat
  idleTimeout : Nat
  priority : Nat
  flowMatch : FlowMatch
  instruction : FlowAction
  deriving DecidableEq, Repr

/-- `flowParam` (part_001 lines 308-317). The `device` pointer is
represented by the two fields `installFlow` reads from it
(`FlowTableID`; the factory and `SendMessage` are the egress effect). -/
structure flowParam where
  deviceID : String
  deviceFlowTableID : Nat
  etherType : Nat
  inPort : Nat
  outPort : Nat
  srcMAC : MAC
  dstMAC : MAC
  targetMAC : MAC
  dstIP : IPNet
  deriving DecidableEq, Repr

/-- `installFlow` (part_001 lines 319-360): builds the match from the
param fields, unconditionally sets both the destination-MAC rewrite and
the output port on the action, wraps it in an ApplyActions instruction,
and sets table id from the device, idle timeout 30 and priority 30. -/
def installFlow (p : flowParam) : FlowMod :=
  { tableID := p.deviceFlowTableID
    idleTimeout := 30
    priority := 30
    flowMatch :=
      { inPort := p.inPort, etherType := p.etherType,
        srcMAC := p.srcMAC, dstMAC := p.dstMAC, dstIP := p.dstIP }
    instruction := { dstMAC := some p.targetMAC, outPort := some p.outPort } }

/-- Why a packet was consumed (`return nil`) without effect; the tags
mirror the distinct log messages of part_001. -/
inductive DropReason where
  | nonIPv4
  | nonICMPToRouter
  | nonEchoICMP
  | unknownHost
  | loop
  | spoofing
  | noGateway
  | noPath
  deriving DecidableEq, Repr

/-- The observable outcome of one `Router.OnPacketIn` call:
pass-through to the next processor (`BaseProcessor.OnPacketIn`),
consume with no effect (`return nil`), a packet-out with no flow
(the ICMP reply path), a flow install followed by a packet-out
(`sendPacket`), the `pickGateway` panic, or an unmarshal error. -/
inductive RouterResult where
  | passThrough (ingress : NetPort) (eth : Ethernet)
  | drop (reason : DropReason)
  | icmpReply (egress : NetPort) (eth : Ethernet)
  | routed (flow : FlowMod) (egress : NetPort) (eth : Ethernet)
  | panicked
  | parseError
  deriving DecidableEq, Repr

/-- `pickGateway` (part_001 lines 297-306): `none` is the panic branch;
a single gateway is returned directly; otherwise `rand.Intn(len)` is
modelled by `rnd % len`, an arbitrary draw below the length. -/
def pickGateway (gateways : List MAC) (rnd : Nat) : Option MAC :=
  if h : gateways.length = 0 then none
  else if gateways.length = 1 then
    some (gateways.get ⟨0, by omega⟩)
  else
    some (gateways.get ⟨rnd % gateways.length, Nat.mod_lt _ (by omega)⟩)

/-- `Router.sendICMPReply` (part_001 lines 129-162): replies only to a
parsable ICMP echo request (type 8); the reply swaps Ethernet src/dst
and IPv4 src/dst and is packet-out on the ingress port, with no flow. -/
def sendICMPReply (ingress : NetPort) (eth : Ethernet) (ip : IPv4) :
    RouterResult :=
  match ip.payload with
  | .raw _ => .drop .nonEchoICMP
  | .icmp echo =>
    if echo.icmpType ≠ 8 then .drop .nonEchoICMP
    else
      let reply := NewICMPEchoReply echo.id echo.sequence echo.payload
      let ipPkt := NewIPv4 ip.dstIP ip.srcIP 0x01 (.icmp reply)
      let ethPkt : Ethernet :=
        { srcMAC := eth.dstMAC, dstMAC := eth.srcMAC,
          etherType := 0x0800, payload := .ipv4 ipPkt }
      .icmpReply ingress ethPkt

/-- `Router.sendPacket` (part_001 lines 268-295): builds the flow param
with the unmodified destination MAC, then replaces the frame's
destination MAC for the packet-out, installs the flow and emits the
frame on the egress port. -/
def sendPacket (ingress : NetPort) (eth : Ethernet) (ip : IPv4)
    (egress : NetPort) (mac : MAC) : RouterResult :=
  let param : flowParam :=
    { deviceID := ingress.deviceID
      deviceFlowTableID := ingress.deviceFlowTableID
      etherType := eth.etherType
      inPort := ingress.number
      outPort := egress.number
      srcMAC := eth.srcMAC
      dstMAC := eth.dstMAC
      targetMAC := mac
      dstIP := { addr := ip.dstIP, mask := 0xFFFFFFFF } }
  .routed (installFlow param) egress { eth with dstMAC := mac }

/-- `Router.route` (part_001 lines 245-266): unknown destination node →
pass through with the destination MAC rewritten; same device → send on
the node's port; otherwise follow the first hop of `Finder.Path`,
dropping when the path is empty. -/
def route (finder : Finder) (ingress : NetPort) (eth : Ethernet)
    (ip : IPv4) (mac : MAC) : RouterResult :=
  match finder.node mac with
  | none => .passThrough ingress { eth with dstMAC := mac }
  | some dstNode =>
    if ingress.deviceID = dstNode.port.deviceID then
      sendPacket ingress eth ip dstNode.port mac
    else
      match finder.path ingress.deviceID dstNode.port.deviceID with
      | [] => .drop .noPath
      | hop :: _ => sendPacket ingress eth ip hop.1 mac

/-- `Router.handleIncoming` (part_001 lines 185-199): look up the host
MAC for the destination IP; drop when unknown, else route to it. -/
def handleIncoming (db : DB) (finder : Finder) (ingress : NetPort)
    (eth : Ethernet) (ip : IPv4) : RouterResult :=
  match db.findMAC ip.dstIP with
  | none => .drop .unknownHost
  | some mac => route finder ingress eth ip mac

/-- `Router.handleOutgoing` (part_001 lines 202-243): first the gateway
loop check on the source MAC, then the spoofing check on the source IP,
then the empty-gateway-list check, then `pickGateway` and route. -/
def handleOutgoing (db : DB) (finder : Finder) (rnd : Nat)
    (ingress : NetPort) (eth : Ethernet) (ip : IPv4) : RouterResult :=
  if db.isGateway eth.srcMAC then .drop .loop
  else if ¬ isMyNetwork db ip.srcIP then .drop .spoofing
  else if db.getGateways.isEmpty then .drop .noGateway
  else
    match pickGateway db.getGateways rnd with
    | none => .panicked
    | some mac => route finder ingress eth ip mac

/-- `Router.OnPacketIn` (part_001 lines 81-127). `rmac` is the router's
configured virtual MAC (`r.mac`); `rnd` is the random draw consumed if
the outgoing path reaches `pickGateway`. -/
def onPacketIn (rmac : MAC) (db : DB) (finder : Finder) (rnd : Nat)
    (ingress : NetPort) (eth : Ethernet) : RouterResult :=
  if eth.dstMAC ≠ rmac then .passThrough ingress eth
  else if eth.etherType ≠ 0x0800 then .drop .nonIPv4
  else
    match eth.payload with
    | .raw _ => .parseError
    | .ipv4 ip =>
      if db.isRouter ip.dstIP then
        if ip.protocol = 0x01 then sendICMPReply ingress eth ip
        else .drop .nonICMPToRouter
      else if isMyNetwork db ip.dstIP then
        handleIncoming db finder ingress eth ip
      else
        handleOutgoing db finder rnd ingress eth ip

end Cherry

namespace Cherry

/-! ## Helper lemmas about the router model -/

/-- `pickGateway` succeeds on every non-empty list and returns one of
its elements. -/
theorem pickGateway_mem (gws : List MAC) (rnd : Nat) (h : gws ≠ []) :
    ∃ mac, pickGateway gws rnd = some mac ∧ mac ∈ gws := by
  have hl : gws.length ≠ 0 := by simpa using h
  unfold pickGateway
  rw [dif_neg hl]
  by_cases h1 : gws.length = 1
  · rw [if_pos h1]
    exact ⟨_, rfl, List.get_mem _ _ _⟩
  · rw [if_neg h1]
    exact ⟨_, rfl, List.get_mem _ _ _⟩

/-- `sendPacket` always yields a flow install plus packet-out. -/
theorem sendPacket_ne_panicked (ingress : NetPort) (eth : Ethernet)
    (ip : IPv4) (egress : NetPort) (mac : MAC) :
    sendPacket ingress eth ip egress mac ≠ .panicked := by
  simp [sendPacket]

/-- `sendICMPReply` never reaches `pickGateway`. -/
theorem sendICMPReply_ne_panicked (ingress : NetPort) (eth : Ethernet)
    (ip : IPv4) : sendICMPReply ingress eth ip ≠ .panicked := by
  unfold sendICMPReply
  rcases ip with ⟨s, d, pr, pl⟩
  cases pl with
  | raw b => simp
  | icmp e => by_cases h : e.icmpType ≠ 8 <;> simp [h]

/-- `route` never reaches `pickGateway`. -/
theorem route_ne_panicked (finder : Finder) (ingress : NetPort)
    (eth : Ethernet) (ip : IPv4) (mac : MAC) :
    route finder ingress eth ip mac ≠ .panicked := by
  unfold route
  cases hn : finder.node mac with
  | none => simp
  | some dstNode =>
    by_cases hd : ingress.deviceID = dstNode.port.deviceID
    · simpa [hd] using sendPacket_ne_panicked ingress eth ip dstNode.port mac
    · cases hp : finder.path ingress.deviceID dstNode.port.deviceID with
      | nil => simp [hd, hp]
      | cons hop rest =>
        simpa [hd, hp] using sendPacket_ne_panicked ingress eth ip hop.1 mac

/-- `handleIncoming` never reaches `pickGateway`. -/
theorem handleIncoming_ne_panicked (db : DB) (finder : Finder)
    (ingress : NetPort) (eth : Ethernet) (ip : IPv4) :
    handleIncoming db finder ingress eth ip ≠ .panicked := by
  unfold handleIncoming
  cases hm : db.findMAC ip.dstIP with
  | none => simp
  | some mac => exact route_ne_panicked finder ingress eth ip mac

/-- `handleOutgoing` checks the gateway list for emptiness before it
calls `pickGateway`, so the panic branch is dead. -/
theorem handleOutgoing_ne_panicked (db : DB) (finder : Finder) (rnd : Nat)
    (ingress : NetPort) (eth : Ethernet) (ip : IPv4) :
    handleOutgoing db finder rnd ingress eth ip ≠ .panicked := by
  unfold handleOutgoing
  by_cases hg : db.isGateway eth.srcMAC
  · simp [hg]
  · by_cases hm : isMyNetwork db ip.srcIP
    · cases hgw : db.getGateways with
      | nil => simp [hg, hm, hgw]
      | cons a as =>
        have hne : db.getGateways ≠ [] := by simp [hgw]
        obtain ⟨mac, hpk, _⟩ := pickGateway_mem db.getGateways rnd hne
        simpa [hg, hm, hgw, hgw ▸ hpk]
          using route_ne_panicked finder ingress eth ip mac
    · simp [hg, hm]

end Cherry

namespace Cherry

/-! ## Claim theorems for the Router -/

/-- C2: for every packet-in destined to the router's virtual MAC whose
payload is IPv4 carrying an ICMP echo request (type 8) to a router IP,
`OnPacketIn` emits exactly one packet-out on the ingress port: an ICMP
echo reply carrying the request's ID, sequence and payload, with IPv4
source = request's destination IP, IPv4 destination = request's source
IP, Ethernet src/dst swapped — and installs no flow (the `icmpReply`
outcome carries no `FlowMod`). -/
theorem onPacketIn_echo_reply (rmac : MAC) (db : DB) (finder : Finder)
    (rnd : Nat) (ingress : NetPort) (eth : Ethernet) (ip : IPv4)
    (echo : ICMPEcho)
    (hdst : eth.dstMAC = rmac) (htyp : eth.etherType = 0x0800)
    (hpl : eth.payload = .ipv4 ip) (hrouter : db.isRouter ip.dstIP = true)
    (hproto : ip.protocol = 0x01) (hicmp : ip.payload = .icmp echo)
    (hecho : echo.icmpType = 8) :
    onPacketIn rmac db finder rnd ingress eth
      = .icmpReply ingress
          { srcMAC := eth.dstMAC, dstMAC := eth.srcMAC, etherType := 0x0800,
            payload := .ipv4
              { srcIP := ip.dstIP, dstIP := ip.srcIP, protocol := 0x01,
                payload := .icmp
                  { icmpType := 0, id := echo.id, sequence := echo.sequence,
                    payload := echo.payload } } } := by
  simp [onPacketIn, hdst, htyp, hpl, hrouter, hproto, sendICMPReply, hicmp,
    hecho, NewICMPEchoReply, NewIPv4]

/-- C2 witness: a concrete ping to the router. -/
theorem onPacketIn_echo_reply_witness :
    onPacketIn [0x00, 0x11, 0x22, 0x33, 0x44, 0x55]
      { findMAC := fun _ => none, getGateways := [],
        getNetworks := [], isGateway := fun _ => false,
        isRouter := fun ip => ip == 0x0A000001 }
      { node := fun _ => none, path := fun _ _ => [] } 0
      { deviceID := "sw1", deviceFlowTableID := 0, number := 3 }
      { srcMAC := [0xaa, 0xbb, 0xcc, 0, 0, 1],
        dstMAC := [0x00, 0x11, 0x22, 0x33, 0x44, 0x55],
        etherType := 0x0800,
        payload := .ipv4
          { srcIP := 0x0A000002, dstIP := 0x0A000001, protocol := 0x01,
            payload := .icmp
              { icmpType := 8, id := 5, sequence := 9,
                payload := [1, 2, 3] } } }
      = .icmpReply
          { deviceID := "sw1", deviceFlowTableID := 0, number := 3 }
          { srcMAC := [0x00, 0x11, 0x22, 0x33, 0x44, 0x55],
            dstMAC := [0xaa, 0xbb, 0xcc, 0, 0, 1],
            etherType := 0x0800,
            payload := .ipv4
              { srcIP := 0x0A000001, dstIP := 0x0A000002, protocol := 0x01,
                payload := .icmp
                  { icmpType := 0, id := 5, sequence := 9,
                    payload := [1, 2, 3] } } } :=
  onPacketIn_echo_reply [0x00, 0x11, 0x22, 0x33, 0x44, 0x55] _ _ 0 _ _
    { srcIP := 0x0A000002, dstIP := 0x0A000001, protocol := 0x01,
      payload := .icmp
        { icmpType := 8, id := 5, sequence := 9, payload := [1, 2, 3] } }
    { icmpType := 8, id := 5, sequence := 9, payload := [1, 2, 3] }
    rfl rfl rfl (by decide) rfl rfl rfl

/-- Concrete `flowParam` whose rewrite target equals the frame's
destination MAC, refuting the conditional-action claim. -/
def c3Param : flowParam :=
  { deviceID := "sw1", deviceFlowTableID := 2, etherType := 0x0800,
    inPort := 1, outPort := 2,
    srcMAC := [1, 2, 3, 4, 5, 6], dstMAC := [7, 8, 9, 10, 11, 12],
    targetMAC := [7, 8, 9, 10, 11, 12],
    dstIP := { addr := 0x0A000001, mask := 0xFFFFFFFF } }

/-- C3 counterexample: with `targetMAC = dstMAC` the claim demands an
action list of just `[output(outPort)]`, i.e. no set-dst-mac action; but
`installFlow` sets the destination-MAC rewrite unconditionally. (The
code also hardcodes priority 30 instead of taking it from the caller:
`installFlow` has no priority parameter at all.) -/
theorem installFlow_unconditional_cex :
    c3Param.targetMAC = c3Param.dstMAC
    ∧ (installFlow c3Param).instruction.dstMAC = some c3Param.targetMAC
    ∧ (installFlow c3Param).instruction.dstMAC ≠ none := by
  decide

/-- C3 amended: for every `flowParam`, the flow-mod built by
`installFlow` carries the action pair set-dst-mac(`targetMAC`) and
output(`outPort`) unconditionally — also when `targetMAC = dstMAC` — in
an ApplyActions instruction, with `table = device.FlowTableID()`,
`idle_timeout = 30`, and priority fixed at 30 (not supplied by the
caller). -/
theorem installFlow_characterization (p : flowParam) :
    installFlow p =
      { tableID := p.deviceFlowTableID, idleTimeout := 30, priority := 30,
        flowMatch :=
          { inPort := p.inPort, etherType := p.etherType,
            srcMAC := p.srcMAC, dstMAC := p.dstMAC, dstIP := p.dstIP },
        instruction :=
          { dstMAC := some p.targetMAC, outPort := some p.outPort } } :=
  rfl

/-- C6: a packet-in whose destination MAC differs from the router's
virtual MAC is passed unchanged to the next processor; a packet-in to
the virtual MAC whose EtherType is not 0x0800 is consumed (`return
nil`) with no packet-out and no flow. -/
theorem onPacketIn_filters (rmac : MAC) (db : DB) (finder : Finder)
    (rnd : Nat) (ingress : NetPort) (eth : Ethernet) :
    (eth.dstMAC ≠ rmac →
      onPacketIn rmac db finder rnd ingress eth = .passThrough ingress eth)
    ∧ (eth.dstMAC = rmac → eth.etherType ≠ 0x0800 →
      onPacketIn rmac db finder rnd ingress eth = .drop .nonIPv4) := by
  constructor
  · intro h
    simp [onPacketIn, h]
  · intro h1 h2
    simp [onPacketIn, h1, h2]

/-- C6 witness: an ARP frame to another host is passed through; an ARP
frame to the virtual MAC is dropped. -/
theorem onPacketIn_filters_witness :
    onPacketIn [0x00, 0x11, 0x22, 0x33, 0x44, 0x55]
        { findMAC := fun _ => none, getGateways := [], getNetworks := [],
          isGateway := fun _ => false, isRouter := fun _ => false }
        { node := fun _ => none, path := fun _ _ => [] } 0
        { deviceID := "sw1", deviceFlowTableID := 0, number := 1 }
        { srcMAC := [1, 1, 1, 1, 1, 1], dstMAC := [2, 2, 2, 2, 2, 2],
          etherType := 0x0806, payload := .raw [] }
      = .passThrough
          { deviceID := "sw1", deviceFlowTableID := 0, number := 1 }
          { srcMAC := [1, 1, 1, 1, 1, 1], dstMAC := [2, 2, 2, 2, 2, 2],
            etherType := 0x0806, payload := .raw [] }
    ∧ onPacketIn [0x00, 0x11, 0x22, 0x33, 0x44, 0x55]
        { findMAC := fun _ => none, getGateways := [], getNetworks := [],
          isGateway := fun _ => false, isRouter := fun _ => false }
        { node := fun _ => none, path := fun _ _ => [] } 0
        { deviceID := "sw1", deviceFlowTableID := 0, number := 1 }
        { srcMAC := [1, 1, 1, 1, 1, 1],
          dstMAC := [0x00, 0x11, 0x22, 0x33, 0x44, 0x55],
          etherType := 0x0806, payload := .raw [] }
      = .drop .nonIPv4 :=
  ⟨(onPacketIn_filters _ _ _ _ _ _).1 (by decide),
   (onPacketIn_filters _ _ _ _ _ _).2 rfl (by decide)⟩

end Cherry

namespace Cherry

/-! ## C7 — order of the outgoing-path checks -/

/-- Concrete database for the C7 counterexample: the frame's source MAC
is registered as a gateway AND its source IP is inside no configured
network (there are none), so both drop conditions hold at once and the
outcome reveals which check runs first. -/
def c7DB : DB :=
  { findMAC := fun _ => none
    getGateways := [[0xde, 0xad, 0, 0, 0, 1]]
    getNetworks := []
    isGateway := fun mac => mac == [0xde, 0xad, 0, 0, 0, 2]
    isRouter := fun _ => false }

/-- The outgoing frame of the C7 counterexample, sent from the gateway
MAC with a source IP in no configured network. -/
def c7Eth : Ethernet :=
  { srcMAC := [0xde, 0xad, 0, 0, 0, 2]
    dstMAC := [0x00, 0x11, 0x22, 0x33, 0x44, 0x55]
    etherType := 0x0800
    payload := .ipv4
      { srcIP := 0xC0A80105, dstIP := 0x08080808, protocol := 6,
        payload := .raw [] } }

/-- C7 counterexample: the claim says the handler FIRST validates the
source IP and drops the packet as spoofing when it is in no configured
network; here is an outgoing packet (destination neither a router IP nor
in a configured network) whose source IP is in no configured network,
yet the router drops it as a gateway LOOP — the gateway check runs
before the spoofing check. -/
theorem outgoing_spoofing_first_cex :
    isMyNetwork c7DB 0xC0A80105 = false
    ∧ c7DB.isRouter 0x08080808 = false
    ∧ isMyNetwork c7DB 0x08080808 = false
    ∧ onPacketIn [0x00, 0x11, 0x22, 0x33, 0x44, 0x55] c7DB
        { node := fun _ => none, path := fun _ _ => [] } 0
        { deviceID := "sw1", deviceFlowTableID := 0, number := 1 } c7Eth
      = .drop .loop
    ∧ RouterResult.drop .loop ≠ RouterResult.drop .spoofing := by
  decide

/-- C7 amended: on the outgoing path the router FIRST checks whether the
source MAC is itself a gateway, dropping and logging a loop if so; only
then validates that the source IP lies within a configured network,
dropping the packet as spoofing otherwise; and only then (after ruling
out an empty list) picks a gateway from `GetGateways()` — an element of
that list — by a random draw. In each failure case the outcome is a
plain drop: no flow installed and no packet-out. -/
theorem outgoing_checks_order (rmac : MAC) (db : DB) (finder : Finder)
    (rnd : Nat) (ingress : NetPort) (eth : Ethernet) (ip : IPv4)
    (hdst : eth.dstMAC = rmac) (htyp : eth.etherType = 0x0800)
    (hpl : eth.payload = .ipv4 ip) (hrouter : db.isRouter ip.dstIP = false)
    (hmine : isMyNetwork db ip.dstIP = false) :
    (db.isGateway eth.srcMAC = true →
      onPacketIn rmac db finder rnd ingress eth = .drop .loop)
    ∧ (db.isGateway eth.srcMAC = false → isMyNetwork db ip.srcIP = false →
      onPacketIn rmac db finder rnd ingress eth = .drop .spoofing)
    ∧ (db.isGateway eth.srcMAC = false → isMyNetwork db ip.srcIP = true →
       db.getGateways = [] →
      onPacketIn rmac db finder rnd ingress eth = .drop .noGateway)
    ∧ (db.isGateway eth.srcMAC = false → isMyNetwork db ip.srcIP = true →
       db.getGateways ≠ [] →
      ∃ mac, pickGateway db.getGateways rnd = some mac
        ∧ mac ∈ db.getGateways
        ∧ onPacketIn rmac db finder rnd ingress eth
            = route finder ingress eth ip mac) := by
  refine ⟨?_, ?_, ?_, ?_⟩
  · intro hg
    simp [onPacketIn, hdst, htyp, hpl, hrouter, hmine, handleOutgoing, hg]
  · intro hg hs
    simp [onPacketIn, hdst, htyp, hpl, hrouter, hmine, handleOutgoing, hg, hs]
  · intro hg hs hempty
    simp [onPacketIn, hdst, htyp, hpl, hrouter, hmine, handleOutgoing, hg, hs,
      hempty]
  · intro hg hs hne
    obtain ⟨mac, hpk, hmem⟩ := pickGateway_mem db.getGateways rnd hne
    refine ⟨mac, hpk, hmem, ?_⟩
    have hempty : db.getGateways.isEmpty = false := by
      cases h : db.getGateways with
      | nil => exact absurd h hne
      | cons a as => simp
    simp [onPacketIn, hdst, htyp, hpl, hrouter, hmine, handleOutgoing, hg, hs,
      hempty, hpk]

/-- C7 amended witness: one concrete run through each of the four
branches (loop, spoofing, no gateway, routed via a picked gateway). -/
theorem outgoing_checks_order_witness :
    onPacketIn [0x00, 0x11, 0x22, 0x33, 0x44, 0x55] c7DB
        { node := fun _ => none, path := fun _ _ => [] } 0
        { deviceID := "sw1", deviceFlowTableID := 0, number := 1 } c7Eth
      = .drop .loop :=
  ((outgoing_checks_order [0x00, 0x11, 0x22, 0x33, 0x44, 0x55] c7DB
      { node := fun _ => none, path := fun _ _ => [] } 0
      { deviceID := "sw1", deviceFlowTableID := 0, number := 1 } c7Eth
      { srcIP := 0xC0A80105, dstIP := 0x08080808, protocol := 6,
        payload := .raw [] }
      rfl rfl rfl (by decide) (by decide)).1) (by decide)

/-! ## C8 — empty path means drop -/

/-- C8: when the next-hop node is known and attached to a device
different from the ingress device, and the Finder's path query returns
the empty path, the router consumes the packet (`OnPacketIn` returns
nil): `route` yields a plain drop — no flow installed, no packet-out.
The second conjunct lifts this through `Router.OnPacketIn` along the
incoming-packet path. -/
theorem route_empty_path_drops (rmac : MAC) (db : DB) (finder : Finder)
    (rnd : Nat) (ingress : NetPort) (eth : Ethernet) (ip : IPv4)
    (mac : MAC) (dstNode : NodeRef)
    (hn : finder.node mac = some dstNode)
    (hdev : ingress.deviceID ≠ dstNode.port.deviceID)
    (hpath : finder.path ingress.deviceID dstNode.port.deviceID = []) :
    route finder ingress eth ip mac = .drop .noPath
    ∧ (eth.dstMAC = rmac → eth.etherType = 0x0800 →
       eth.payload = .ipv4 ip → db.isRouter ip.dstIP = false →
       isMyNetwork db ip.dstIP = true → db.findMAC ip.dstIP = some mac →
       onPacketIn rmac db finder rnd ingress eth = .drop .noPath) := by
  have hroute : route finder ingress eth ip mac = .drop .noPath := by
    simp [route, hn, hdev, hpath]
  refine ⟨hroute, ?_⟩
  intro hdst htyp hpl hrouter hmine hfind
  simp [onPacketIn, hdst, htyp, hpl, hrouter, hmine, handleIncoming, hfind,
    hroute]

/-- C8 witness: host `bb:…:02` is known on switch `sw2`, the packet
arrives on `sw1`, and the topology has no current path between them. -/
theorem route_empty_path_drops_witness :
    route
      { node := fun mac =>
          if mac == [0xbb, 0xbb, 0xbb, 0xbb, 0xbb, 0x02] then
            some { mac := [0xbb, 0xbb, 0xbb, 0xbb, 0xbb, 0x02],
                   port := { deviceID := "sw2", deviceFlowTableID := 0,
                             number := 2 } }
          else none,
        path := fun _ _ => [] }
      { deviceID := "sw1", deviceFlowTableID := 0, number := 1 }
      { srcMAC := [0xaa, 0xaa, 0xaa, 0xaa, 0xaa, 0x01],
        dstMAC := [0x00, 0x11, 0x22, 0x33, 0x44, 0x55],
        etherType := 0x0800,
        payload := .ipv4
          { srcIP := 0x0A000002, dstIP := 0x0A000003, protocol := 6,
            payload := .raw [] } }
      { srcIP := 0x0A000002, dstIP := 0x0A000003, protocol := 6,
        payload := .raw [] }
      [0xbb, 0xbb, 0xbb, 0xbb, 0xbb, 0x02]
      = .drop .noPath :=
  (route_empty_path_drops [0x00, 0x11, 0x22, 0x33, 0x44, 0x55]
    { findMAC := fun _ => none, getGateways := [], getNetworks := [],
      isGateway := fun _ => false, isRouter := fun _ => false }
    { node := fun mac =>
        if mac == [0xbb, 0xbb, 0xbb, 0xbb, 0xbb, 0x02] then
          some { mac := [0xbb, 0xbb, 0xbb, 0xbb, 0xbb, 0x02],
                 port := { deviceID := "sw2", deviceFlowTableID := 0,
                           number := 2 } }
        else none,
      path := fun _ _ => [] } 0
    { deviceID := "sw1", deviceFlowTableID := 0, number := 1 }
    { srcMAC := [0xaa, 0xaa, 0xaa, 0xaa, 0xaa, 0x01],
      dstMAC := [0x00, 0x11, 0x22, 0x33, 0x44, 0x55],
      etherType := 0x0800,
      payload := .ipv4
        { srcIP := 0x0A000002, dstIP := 0x0A000003, protocol := 6,
          payload := .raw [] } }
    { srcIP := 0x0A000002, dstIP := 0x0A000003, protocol := 6,
      payload := .raw [] }
    [0xbb, 0xbb, 0xbb, 0xbb, 0xbb, 0x02]
    { mac := [0xbb, 0xbb, 0xbb, 0xbb, 0xbb, 0x02],
      port := { deviceID := "sw2", deviceFlowTableID := 0, number := 2 } }
    (by decide) (by decide) rfl).1

/-! ## C9 — pickGateway safety -/

/-- C9: the `pickGateway` panic branch is unreachable in every execution
of `Router.OnPacketIn` (the gateway list is checked non-empty first),
and on every non-empty gateway list `pickGateway` returns an element of
that list. -/
theorem pickGateway_safe :
    (∀ (rmac : MAC) (db : DB) (finder : Finder) (rnd : Nat)
       (ingress : NetPort) (eth : Ethernet),
      onPacketIn rmac db finder rnd ingress eth ≠ .panicked)
    ∧ (∀ (gws : List MAC) (rnd : Nat), gws ≠ [] →
      ∃ mac, pickGateway gws rnd = some mac ∧ mac ∈ gws) := by
  constructor
  · intro rmac db finder rnd ingress eth
    unfold onPacketIn
    by_cases h1 : eth.dstMAC ≠ rmac
    · simp [h1]
    · by_cases h2 : eth.etherType ≠ 0x0800
      · simp [h1, h2]
      · rcases eth with ⟨s, d, t, pl⟩
        cases pl with
        | raw b => simp [h1, h2]
        | ipv4 ip =>
          by_cases h3 : db.isRouter ip.dstIP
          · by_cases h4 : ip.protocol = 0x01
            · simpa [h1, h2, h3, h4] using
                sendICMPReply_ne_panicked ingress ⟨s, d, t, .ipv4 ip⟩ ip
            · simp [h1, h2, h3, h4]
          · by_cases h5 : isMyNetwork db ip.dstIP
            · simpa [h1, h2, h3, h5] using
                handleIncoming_ne_panicked db finder ingress
                  ⟨s, d, t, .ipv4 ip⟩ ip
            · simpa [h1, h2, h3, h5] using
                handleOutgoing_ne_panicked db finder rnd ingress
                  ⟨s, d, t, .ipv4 ip⟩ ip
  · exact fun gws rnd h => pickGateway_mem gws rnd h

/-- C9 witness: a concrete packet never panics, and a concrete two-entry
gateway list yields a member. -/
theorem pickGateway_safe_witness :
    onPacketIn [0x00, 0x11, 0x22, 0x33, 0x44, 0x55] c7DB
        { node := fun _ => none, path := fun _ _ => [] } 0
        { deviceID := "sw1", deviceFlowTableID := 0, number := 1 } c7Eth
      ≠ .panicked
    ∧ ∃ mac, pickGateway [[1, 1, 1, 1, 1, 1], [2, 2, 2, 2, 2, 2]] 3
          = some mac
        ∧ mac ∈ [[1, 1, 1, 1, 1, 1], [2, 2, 2, 2, 2, 2]] :=
  ⟨pickGateway_safe.1 _ c7DB _ 0 _ c7Eth,
   pickGateway_safe.2 [[1, 1, 1, 1, 1, 1], [2, 2, 2, 2, 2, 2]] 3
     (by decide)⟩

end Cherry

namespace Cherry

/-! ## REST controller (firewall.go, package network)

The HTTP layer (`rest.ResponseWriter`, JSON decoding) and the
administrative database are external; the handlers are modelled as
functions from their decode/query outcomes to the written status code
plus the calls they made. `Except String` stands for Go's `error`
returns. -/

/-- The status-code constants of firewall.go (lines 294-303), an iota
block starting at 0. -/
def okay : Nat := 0

/-- `queryFailed = 1`. -/
def queryFailed : Nat := 1

/-- `decodeFailed = 2`. -/
def decodeFailed : Nat := 2

/-- `invalidParam = 3`. -/
def invalidParam : Nat := 3

/-- `duplicatedDPID = 4`. -/
def duplicatedDPID : Nat := 4

/-- `invalidSwitchID = 5`. -/
def invalidSwitchID : Nat := 5

/-- `unknownSwitchID = 6`. -/
def unknownSwitchID : Nat := 6

/-- The POST body `Switch{dpid, n_ports, first_port, description}`
(firewall.go lines 204-209). `n_ports` and `first_port` are `uint16`,
`dpid` is `uint64`; the theorems carry the `uint16` bounds where the
claim depends on them. -/
structure Switch where
  dpid : Nat
  numPorts : Nat
  firstPort : Nat
  description : String
  deriving DecidableEq, Repr

/-- `Switch.validate` (firewall.go lines 211-220): `n_ports > 512` or
`first_port + n_ports > 0xFFFF` is an error. Go widens both operands to
`uint32` before adding, so for `uint16` inputs the sum is exact — as is
the `Nat` sum here. -/
def Switch.validate (r : Switch) : Option String :=
  if r.numPorts > 512 then some "too many ports"
  else if r.firstPort + r.numPorts > 0xFFFF then
    some "too high first port number"
  else none

/-- `Controller.addSwitch` (firewall.go lines 241-265): decode, then
`validate`, then the duplicate-DPID lookup, then `AddSwitch`. Returns
the status written to the response and whether `AddSwitch` was called.
`decoded` is the outcome of `DecodeJsonPayload`, `lookup dpid` the
outcome of `db.Switch(dpid)` (its `ok` flag), and `addResult` the
outcome of `db.AddSwitch`. -/
def addSwitch (decoded : Except String Switch)
    (lookup : Nat → Except String Bool)
    (addResult : Switch → Except String Unit) : Nat × Bool :=
  match decoded with
  | .error _ => (decodeFailed, false)
  | .ok sw =>
    match sw.validate with
    | some _ => (invalidParam, false)
    | none =>
      match lookup sw.dpid with
      | .error _ => (queryFailed, false)
      | .ok true => (duplicatedDPID, false)
      | .ok false =>
        match addResult sw with
        | .error _ => (queryFailed, true)
        | .ok _ => (okay, true)

/-- A currently connected device as the removal loop sees it: its ID and
whether its `RemoveAllFlows` call fails. -/
structure ConnDevice where
  id : String
  removeAllFlowsFails : Bool
  deriving DecidableEq, Repr

/-- The `for _, sw := range r.topo.Devices()` loop of `removeSwitch`
(firewall.go lines 284-289): `RemoveAllFlows` is invoked on every
device; on failure the error is logged and the loop continues. Returns
the devices invoked, in order. -/
def flowClearLoop (devices : List ConnDevice) : List String :=
  match devices with
  | [] => []
  | d :: rest =>
    if d.removeAllFlowsFails then
      d.id :: flowClearLoop rest
    else
      d.id :: flowClearLoop rest

/-- `Controller.removeSwitch` (firewall.go lines 267-292): parse the id
(`none` = `strconv.ParseUint` failure), call `db.RemoveSwitch`, and on
success clear flows on every connected device, always answering
`okay`. Returns the status and the devices on which `RemoveAllFlows`
was invoked. -/
def removeSwitch (parsedID : Option Nat)
    (dbRemove : Nat → Except String Bool)
    (devices : List ConnDevice) : Nat × List String :=
  match parsedID with
  | none => (invalidSwitchID, [])
  | some id =>
    match dbRemove id with
    | .error _ => (queryFailed, [])
    | .ok false => (unknownSwitchID, [])
    | .ok true => (okay, flowClearLoop devices)

end Cherry

namespace Cherry

/-! ## Claim theorems for the REST handlers -/

/-- `validate` succeeds exactly when neither rejection condition holds. -/
theorem validate_none_iff (sw : Switch) :
    sw.validate = none
      ↔ ¬ (sw.numPorts > 512 ∨ sw.firstPort + sw.numPorts > 0xFFFF) := by
  unfold Switch.validate
  by_cases h1 : sw.numPorts > 512
  · simp [h1]
  · by_cases h2 : sw.firstPort + sw.numPorts > 0xFFFF
    · simp [h1, h2]
    · simp [h1, h2]

/-- The loop invokes `RemoveAllFlows` exactly once on every device, in
order, independent of which calls fail. -/
theorem flowClearLoop_all (devices : List ConnDevice) :
    flowClearLoop devices = devices.map (fun d => d.id) := by
  induction devices with
  | nil => rfl
  | cons d rest ih =>
    by_cases h : d.removeAllFlowsFails <;> simp [flowClearLoop, h, ih]


/-- C4: for every successfully-decoded POST /api/v1/switch body (with
the Go `uint16` bounds on `n_ports` and `first_port`), the response is
`invalidParam` exactly when `n_ports > 512` or `first_port + n_ports >
0xFFFF` — the sum exact, since Go widens to `uint32` and the model uses
`Nat`; when the parameters are valid but the DPID is already registered
the response is `duplicatedDPID` and `AddSwitch` is not called; and in
every `invalidParam` or `duplicatedDPID` rejection `AddSwitch` is never
called, leaving the administrative database unchanged. -/
theorem addSwitch_rejections (decoded : Except String Switch)
    (lookup : Nat → Except String Bool)
    (addResult : Switch → Except String Unit) (sw : Switch)
    (hdec : decoded = .ok sw)
    (_hports : sw.numPorts < 65536) (_hfirst : sw.firstPort < 65536) :
    ((addSwitch decoded lookup addResult).1 = invalidParam
      ↔ sw.numPorts > 512 ∨ sw.firstPort + sw.numPorts > 0xFFFF)
    ∧ (sw.validate = none → lookup sw.dpid = .ok true →
      addSwitch decoded lookup addResult = (duplicatedDPID, false))
    ∧ ((addSwitch decoded lookup addResult).1 = invalidParam
        ∨ (addSwitch decoded lookup addResult).1 = duplicatedDPID →
      (addSwitch decoded lookup addResult).2 = false) := by
  subst hdec
  refine ⟨?_, ?_, ?_⟩
  · by_cases hc1 : sw.numPorts > 512
    · constructor
      · intro _
        exact Or.inl hc1
      · intro _
        simp [addSwitch, Switch.validate, hc1]
    · by_cases hc2 : sw.firstPort + sw.numPorts > 0xFFFF
      · constructor
        · intro _
          exact Or.inr hc2
        · intro _
          simp [addSwitch, Switch.validate, hc1, hc2]
      · have hv : sw.validate = none := by
          simp [Switch.validate, hc1, hc2]
        constructor
        · intro habs
          exfalso
          rcases h2 : lookup sw.dpid with e | b
          · simp [addSwitch, hv, h2, queryFailed, invalidParam] at habs
          · cases b with
            | true =>
              simp [addSwitch, hv, h2, duplicatedDPID, invalidParam] at habs
            | false =>
              rcases h3 : addResult sw with e | u
              · simp [addSwitch, hv, h2, h3, queryFailed, invalidParam] at habs
              · simp [addSwitch, hv, h2, h3, okay, invalidParam] at habs
        · intro hor
          rcases hor with h | h
          · exact absurd h hc1
          · exact absurd h hc2
  · intro hv hdup
    simp [addSwitch, hv, hdup]
  · intro h
    cases hv : sw.validate with
    | some msg =>
      simp [addSwitch, hv]
    | none =>
      rcases h2 : lookup sw.dpid with e | b
      · exfalso
        simp [addSwitch, hv, h2, queryFailed, invalidParam,
          duplicatedDPID] at h
      · cases b with
        | true =>
          simp [addSwitch, hv, h2]
        | false =>
          rcases h3 : addResult sw with e | u
          · exfalso
            simp [addSwitch, hv, h2, h3, queryFailed, invalidParam,
              duplicatedDPID] at h
          · exfalso
            simp [addSwitch, hv, h2, h3, okay, invalidParam,
              duplicatedDPID] at h

/-- C4 witness: `n_ports = 600` is rejected as `invalidParam`; a valid
body whose DPID is already registered is rejected as `duplicatedDPID`
without calling `AddSwitch`. -/
theorem addSwitch_rejections_witness :
    ((addSwitch
        (.ok { dpid := 1, numPorts := 600, firstPort := 1,
               description := "r1" })
        (fun _ => .ok false) (fun _ => .ok ())).1 = invalidParam
      ↔ (600 : Nat) > 512 ∨ (1 : Nat) + 600 > 0xFFFF)
    ∧ (addSwitch
        (.ok { dpid := 1, numPorts := 4, firstPort := 1,
               description := "r1" })
        (fun _ => .ok true) (fun _ => .ok ())
       = (duplicatedDPID, false)) :=
  ⟨(addSwitch_rejections _ (fun _ => .ok false) (fun _ => .ok ())
      { dpid := 1, numPorts := 600, firstPort := 1, description := "r1" }
      rfl (by decide) (by decide)).1,
   (addSwitch_rejections _ (fun _ => .ok true) (fun _ => .ok ())
      { dpid := 1, numPorts := 4, firstPort := 1, description := "r1" }
      rfl (by decide) (by decide)).2.1 (by decide) rfl⟩

/-- C5: for a DELETE /api/v1/switch/:id request with a well-formed
numeric id: when the database reports the id unknown the response is
`unknownSwitchID` and `RemoveAllFlows` is invoked on no device; when
removal succeeds, `RemoveAllFlows` is invoked exactly once on every
currently connected device (a per-device failure does not stop the
loop — the invoked list is independent of the failure flags) and the
status is `okay` regardless of per-device failures. -/
theorem removeSwitch_spec (parsedID : Option Nat) (id : Nat)
    (dbRemove : Nat → Except String Bool) (devices : List ConnDevice)
    (hid : parsedID = some id) :
    (dbRemove id = .ok false →
      removeSwitch parsedID dbRemove devices = (unknownSwitchID, []))
    ∧ (dbRemove id = .ok true →
      removeSwitch parsedID dbRemove devices
        = (okay, devices.map (fun d => d.id))) := by
  subst hid
  constructor
  · intro h
    simp [removeSwitch, h]
  · intro h
    simp [removeSwitch, h, flowClearLoop_all]

/-- C5 witness: unknown id 9 touches no device; removing id 4 clears
flows once on each of the three connected devices, including the one
whose `RemoveAllFlows` fails, and still answers `okay`. -/
theorem removeSwitch_spec_witness :
    removeSwitch (some 9)
        (fun i => .ok (i == 4))
        [{ id := "sw1", removeAllFlowsFails := false },
         { id := "sw2", removeAllFlowsFails := true },
         { id := "sw3", removeAllFlowsFails := false }]
      = (unknownSwitchID, [])
    ∧ removeSwitch (some 4)
        (fun i => .ok (i == 4))
        [{ id := "sw1", removeAllFlowsFails := false },
         { id := "sw2", removeAllFlowsFails := true },
         { id := "sw3", removeAllFlowsFails := false }]
      = (okay, ["sw1", "sw2", "sw3"]) :=
  ⟨(removeSwitch_spec (some 9) 9 (fun i => .ok (i == 4))
      [{ id := "sw1", removeAllFlowsFails := false },
       { id := "sw2", removeAllFlowsFails := true },
       { id := "sw3", removeAllFlowsFails := false }] rfl).1 rfl,
   (removeSwitch_spec (some 4) 4 (fun i => .ok (i == 4))
      [{ id := "sw1", removeAllFlowsFails := false },
       { id := "sw2", removeAllFlowsFails := true },
       { id := "sw3", removeAllFlowsFails := false }] rfl).2 rfl⟩

end Cherry
